import Mathlib

/-!
Verification of the `claude_client.py` command-line utility.

The program is embedded shallowly: the external completion service is a
function from requests to responses, the process environment is an
`Option String` holding the value of `ANTHROPIC_API_KEY` (or `none` when
the variable is absent), and an invocation is summarised by a record of
the text written to standard output, the text written to standard error,
the exit status, and the list of requests sent to the service.
-/

namespace ClaudeClient

/-- One content segment of a service response; the program reads only its
`text` field (`message.content[0].text`). -/
structure ContentBlock where
  text : String
  deriving Repr, DecidableEq

/-- One chat message of the request, as built at lines 17-20 of
`claude_client.py`. -/
structure Message where
  role : String
  content : String
  deriving Repr, DecidableEq

/-- The parameters the program passes to `client.messages.create`
(lines 14-21): exactly a model identifier, a token limit and a message
list, nothing else. -/
structure Request where
  model : String
  max_tokens : Nat
  messages : List Message
  deriving Repr, DecidableEq

/-- A service response: a sequence of content segments. -/
structure Response where
  content : List ContentBlock
  deriving Repr, DecidableEq

/-- The two Python exceptions `generate_code` can raise: the explicit
`ValueError` of line 10 and the `IndexError` raised by `message.content[0]`
when the content list is empty. -/
inductive PyError where
  | valueError (msg : String)
  | indexError
  deriving Repr, DecidableEq

/-- The request `generate_code` builds for a given prompt
(lines 14-21 of `claude_client.py`). -/
def requestFor (prompt : String) : Request :=
  { model := "claude-sonnet-4-20250514"
    max_tokens := 4096
    messages := [{ role := "user", content := prompt }] }

deriving instance DecidableEq for Except

/-- Outcome of a `generate_code` call: the returned string or the raised
exception, together with the requests actually sent to the service. -/
structure GenResult where
  result : Except PyError String
  serviceCalls : List Request
  deriving Repr, DecidableEq

/-- Shallow embedding of `generate_code` (lines 5-23 of
`claude_client.py`). `env` is the value of `ANTHROPIC_API_KEY` in the
process environment (`none` when unset); Python's `if not api_key` is
true exactly when the lookup returned `None` or the empty string. On a
non-empty key the request of lines 14-21 is sent and the first content
segment's text is returned; an empty content list makes `content[0]`
raise `IndexError`. -/
def generate_code (env : Option String) (service : Request → Response)
    (prompt : String) : GenResult :=
  match env with
  | none =>
    { result := .error (.valueError "ANTHROPIC_API_KEY not set"), serviceCalls := [] }
  | some api_key =>
    if api_key = "" then
      { result := .error (.valueError "ANTHROPIC_API_KEY not set"), serviceCalls := [] }
    else
      let message := service (requestFor prompt)
      match message.content with
      | [] => { result := .error .indexError, serviceCalls := [requestFor prompt] }
      | c :: _ => { result := .ok c.text, serviceCalls := [requestFor prompt] }

/-- The line printed by `print("Usage: claude_client.py <prompt>")`
(line 27): Python's `print` appends one newline and writes to standard
output. -/
def usageLine : String := "Usage: claude_client.py <prompt>\n"

/-- Text the Python interpreter writes to standard error when an
exception escapes `__main__`; the exit status in that case is 1. -/
def tracebackFor : PyError → String
  | .valueError msg =>
      "Traceback (most recent call last): ValueError: " ++ msg ++ "\n"
  | .indexError =>
      "Traceback (most recent call last): IndexError: list index out of range\n"

/-- Observable outcome of one process invocation. -/
structure ProcResult where
  stdout : String
  stderr : String
  exitCode : Nat
  serviceCalls : List Request
  deriving Repr, DecidableEq

/-- Shallow embedding of the `__main__` block (lines 25-32). With fewer
than two `argv` entries the usage line is printed (by `print`, hence to
standard output) and the process exits 1 before touching the environment
or the service. Otherwise `argv[1]` is the prompt; on success `print(code)`
writes the text plus one newline to standard output and the process exits
0; an escaping exception yields a traceback on standard error and exit
status 1. -/
def main (argv : List String) (env : Option String)
    (service : Request → Response) : ProcResult :=
  match argv with
  | _ :: prompt :: _ =>
    let g := generate_code env service prompt
    match g.result with
    | .ok code =>
      { stdout := code ++ "\n", stderr := "", exitCode := 0, serviceCalls := g.serviceCalls }
    | .error e =>
      { stdout := "", stderr := tracebackFor e, exitCode := 1, serviceCalls := g.serviceCalls }
  | _ =>
    { stdout := usageLine, stderr := "", exitCode := 1, serviceCalls := [] }

/-- A stub service answering every request with one fixed content
segment. -/
def constService (R : String) : Request → Response :=
  fun _ => { content := [{ text := R }] }

/-- A stub service answering every request with zero content segments. -/
def emptyService : Request → Response :=
  fun _ => { content := [] }

/-- C1: for every non-empty prompt string P, given a non-empty credential
in the environment and a service whose response's first content segment
has text R, `run(P)` returns exactly R, and the process writes exactly R
followed by exactly one trailing newline to standard output (no extra
whitespace, no echo of the prompt) and exits with status 0. -/
theorem C1_success_returns_first_segment
    (P key R : String) (service : Request → Response)
    (rest : List ContentBlock)
    (_hP : P ≠ "") (hkey : key ≠ "")
    (hsvc : (service (requestFor P)).content = { text := R } :: rest) :
    (generate_code (some key) service P).result = .ok R ∧
    main ["claude_client.py", P] (some key) service =
      { stdout := R ++ "\n", stderr := "", exitCode := 0,
        serviceCalls := [requestFor P] } := by
  have hg : generate_code (some key) service P =
      { result := .ok R, serviceCalls := [requestFor P] } := by
    simp only [generate_code, if_neg hkey, hsvc]
  refine ⟨by rw [hg], ?_⟩
  simp only [main, hg]

/-- Closed witness for C1, at the spec's concrete scenario. -/
theorem C1_success_returns_first_segment_witness :
    (generate_code (some "k") (constService "lines of code at rest")
        "write a haiku").result = .ok "lines of code at rest" ∧
    main ["claude_client.py", "write a haiku"] (some "k")
        (constService "lines of code at rest") =
      { stdout := "lines of code at rest" ++ "\n", stderr := "", exitCode := 0,
        serviceCalls := [requestFor "write a haiku"] } :=
  C1_success_returns_first_segment "write a haiku" "k" "lines of code at rest"
    (constService "lines of code at rest") [] (by decide) (by decide) rfl

/-- C2: for every prompt P, if the credential environment variable is
absent or is the empty string, `generate_code` fails with the
`ValueError` before any service call (the service receives no request)
and the process exits with non-zero status; the absent and empty-string
cases behave identically. -/
theorem C2_missing_or_empty_credential
    (P : String) (service : Request → Response) :
    generate_code none service P =
      { result := .error (.valueError "ANTHROPIC_API_KEY not set"),
        serviceCalls := [] } ∧
    generate_code (some "") service P = generate_code none service P ∧
    (main ["claude_client.py", P] none service).exitCode ≠ 0 ∧
    (main ["claude_client.py", P] none service).serviceCalls = [] ∧
    main ["claude_client.py", P] (some "") service =
      main ["claude_client.py", P] none service := by
  refine ⟨rfl, rfl, ?_, rfl, rfl⟩
  simp [main, generate_code]

/-- C9: the prompt-argument check precedes the credential check — with no
prompt argument the process exits 1 with the usage message and an empty
service-call list, and the outcome is the same for every environment
(so the credential variable is never consulted, even when absent or
empty). -/
theorem C9_usage_check_precedes_credential
    (env1 env2 : Option String) (service : Request → Response) :
    main ["claude_client.py"] env1 service = main ["claude_client.py"] env2 service ∧
    (main ["claude_client.py"] env1 service).exitCode = 1 ∧
    (main ["claude_client.py"] env1 service).stdout = usageLine ∧
    (main ["claude_client.py"] env1 service).serviceCalls = [] :=
  ⟨rfl, rfl, rfl, rfl⟩

/-- C10: command-line arguments beyond the first are silently ignored —
appending any extra arguments after the prompt leaves the whole
invocation outcome unchanged. -/
theorem C10_extra_arguments_ignored
    (a0 P : String) (extra : List String) (env : Option String)
    (service : Request → Response) :
    main (a0 :: P :: extra) env service = main [a0, P] env service := rfl

/-- C3 counterexample: invoked without a prompt argument, the process
does exit 1 without any service call, but the usage message goes to
standard output and nothing at all is written to the diagnostic stream —
refuting the claim that the usage message is printed to the diagnostic
stream. -/
theorem C3_usage_not_on_diagnostic_stream :
    (main ["claude_client.py"] (some "key") (constService "ok")).stderr = "" ∧
    (main ["claude_client.py"] (some "key") (constService "ok")).stdout = usageLine ∧
    usageLine ≠ "" ∧
    (main ["claude_client.py"] (some "key") (constService "ok")).exitCode = 1 ∧
    (main ["claude_client.py"] (some "key") (constService "ok")).serviceCalls = [] :=
  ⟨rfl, rfl, by decide, rfl, rfl⟩

/-- C3 amended: invoked without a prompt argument (argv of length < 2),
the program performs no network activity, prints the usage message to
standard output (not the diagnostic stream, which stays empty), and
terminates with exit status 1, regardless of environment and service. -/
theorem C3_usage_on_missing_argument
    (a0 : String) (env : Option String) (service : Request → Response) :
    main [a0] env service =
      { stdout := usageLine, stderr := "", exitCode := 1, serviceCalls := [] } ∧
    main [] env service =
      { stdout := usageLine, stderr := "", exitCode := 1, serviceCalls := [] } :=
  ⟨rfl, rfl⟩

/-- C4: at the failing input (a present prompt, a non-empty credential,
and a service returning zero content segments) the code does not fail in
a guarded way: `message.content[0]` raises an uncaught `IndexError`, so
the process crashes with an interpreter traceback and exit status 1. -/
theorem C4_empty_content_raises_index_error :
    generate_code (some "key") emptyService "write a haiku" =
      { result := .error .indexError,
        serviceCalls := [requestFor "write a haiku"] } ∧
    main ["claude_client.py", "write a haiku"] (some "key") emptyService =
      { stdout := "", stderr := tracebackFor .indexError, exitCode := 1,
        serviceCalls := [requestFor "write a haiku"] } :=
  ⟨rfl, rfl⟩

/-- With a non-empty credential, `generate_code` always sends exactly the
one request built from its prompt, whatever the service answers. -/
theorem generate_code_serviceCalls
    (P key : String) (service : Request → Response) (hkey : key ≠ "") :
    (generate_code (some key) service P).serviceCalls = [requestFor P] := by
  simp only [generate_code, if_neg hkey]
  cases h : (service (requestFor P)).content <;> simp [h]

/-- The service-call list of a full invocation with a prompt argument is
the one produced by `generate_code`. -/
theorem main_serviceCalls
    (a0 P : String) (extra : List String) (env : Option String)
    (service : Request → Response) :
    (main (a0 :: P :: extra) env service).serviceCalls =
      (generate_code env service P).serviceCalls := by
  simp only [main]
  cases (generate_code env service P).result <;> simp

/-- C5: for every prompt that reaches the delegation step (non-empty
credential), exactly one request is sent, holding exactly one message
with role "user" and content equal to the prompt, a maximum completion
length of 4096 tokens, and the fixed constant model identifier; the
`Request` record has no further fields, so no other parameter is set. -/
theorem C5_request_shape
    (P key : String) (service : Request → Response) (hkey : key ≠ "") :
    (generate_code (some key) service P).serviceCalls =
      [{ model := "claude-sonnet-4-20250514", max_tokens := 4096,
         messages := [{ role := "user", content := P }] }] :=
  generate_code_serviceCalls P key service hkey

/-- Closed witness for C5. -/
theorem C5_request_shape_witness :
    (generate_code (some "k") (constService "ok") "write a haiku").serviceCalls =
      [{ model := "claude-sonnet-4-20250514", max_tokens := 4096,
         messages := [{ role := "user", content := "write a haiku" }] }] :=
  C5_request_shape "write a haiku" "k" (constService "ok") (by decide)

/-- C7: the prompt is an opaque string forwarded unchanged — for every
prompt, including the empty string, the service receives exactly the
request built from that prompt verbatim, and a present-but-empty prompt
argument does not trigger the usage path (the service is still called,
so no usage message and no early exit occurred). -/
theorem C7_prompt_opaque_and_forwarded
    (P key : String) (service : Request → Response) (hkey : key ≠ "") :
    (generate_code (some key) service P).serviceCalls = [requestFor P] ∧
    (main ["claude_client.py", P] (some key) service).serviceCalls = [requestFor P] ∧
    (requestFor P).messages = [{ role := "user", content := P }] := by
  have hg := generate_code_serviceCalls P key service hkey
  exact ⟨hg, by rw [main_serviceCalls, hg], rfl⟩

/-- Closed witness for C7, at the empty prompt: the empty string counts
as a present argument and is forwarded verbatim. -/
theorem C7_prompt_opaque_and_forwarded_witness :
    (generate_code (some "k") (constService "ok") "").serviceCalls = [requestFor ""] ∧
    (main ["claude_client.py", ""] (some "k") (constService "ok")).serviceCalls =
      [requestFor ""] ∧
    (requestFor "").messages = [{ role := "user", content := "" }] :=
  C7_prompt_opaque_and_forwarded "" "k" (constService "ok") (by decide)

/-- With any non-empty credential the outcome of `generate_code` does not
depend on which non-empty credential it is. -/
theorem generate_code_key_irrelevant
    (k1 k2 P : String) (service : Request → Response)
    (h1 : k1 ≠ "") (h2 : k2 ≠ "") :
    generate_code (some k1) service P = generate_code (some k2) service P := by
  simp only [generate_code, if_neg h1, if_neg h2]

/-- C8: the credential value never appears in the program's output — for
any two non-empty credential values and otherwise identical argument
lists and services, the whole invocation outcome, in particular the text
written to standard output and to the diagnostic stream, is identical. -/
theorem C8_credential_noninterference
    (k1 k2 : String) (argv : List String) (service : Request → Response)
    (h1 : k1 ≠ "") (h2 : k2 ≠ "") :
    main argv (some k1) service = main argv (some k2) service ∧
    (main argv (some k1) service).stdout = (main argv (some k2) service).stdout ∧
    (main argv (some k1) service).stderr = (main argv (some k2) service).stderr := by
  have hm : main argv (some k1) service = main argv (some k2) service := by
    cases argv with
    | nil => rfl
    | cons a0 rest =>
      cases rest with
      | nil => rfl
      | cons P extra =>
        simp only [main, generate_code_key_irrelevant k1 k2 P service h1 h2]
  exact ⟨hm, by rw [hm], by rw [hm]⟩

/-- Closed witness for C8. -/
theorem C8_credential_noninterference_witness :
    main ["claude_client.py", "write a haiku"] (some "secret-one") (constService "ok") =
      main ["claude_client.py", "write a haiku"] (some "secret-two") (constService "ok") ∧
    (main ["claude_client.py", "write a haiku"] (some "secret-one")
        (constService "ok")).stdout =
      (main ["claude_client.py", "write a haiku"] (some "secret-two")
        (constService "ok")).stdout ∧
    (main ["claude_client.py", "write a haiku"] (some "secret-one")
        (constService "ok")).stderr =
      (main ["claude_client.py", "write a haiku"] (some "secret-two")
        (constService "ok")).stderr :=
  C8_credential_noninterference "secret-one" "secret-two"
    ["claude_client.py", "write a haiku"] (constService "ok")
    (by decide) (by decide)

/-- Interpreter tracebacks are never the empty string. -/
theorem tracebackFor_ne_empty (e : PyError) : tracebackFor e ≠ "" := by
  cases e with
  | valueError msg =>
    intro h
    have hlen := congrArg String.length h
    simp [tracebackFor, String.length_append] at hlen
    exact absurd hlen.1.1 (by decide)
  | indexError => decide

/-- Characterisation of a full invocation on a successful
`generate_code` call. -/
theorem main_ok (a0 P : String) (extra : List String) (env : Option String)
    (service : Request → Response) (code : String)
    (h : (generate_code env service P).result = .ok code) :
    main (a0 :: P :: extra) env service =
      { stdout := code ++ "\n", stderr := "", exitCode := 0,
        serviceCalls := (generate_code env service P).serviceCalls } := by
  simp only [main, h]

/-- Characterisation of a full invocation on a failing `generate_code`
call. -/
theorem main_err (a0 P : String) (extra : List String) (env : Option String)
    (service : Request → Response) (e : PyError)
    (h : (generate_code env service P).result = .error e) :
    main (a0 :: P :: extra) env service =
      { stdout := "", stderr := tracebackFor e, exitCode := 1,
        serviceCalls := (generate_code env service P).serviceCalls } := by
  simp only [main, h]

/-- The service is invoked at most once per `generate_code` call. -/
theorem generate_code_calls_length_le_one
    (env : Option String) (service : Request → Response) (P : String) :
    (generate_code env service P).serviceCalls.length ≤ 1 := by
  cases env with
  | none => simp [generate_code]
  | some k =>
    by_cases hk : k = ""
    · simp [generate_code, hk]
    · simp only [generate_code, if_neg hk]
      cases (service (requestFor P)).content <;> simp

/-- A successful `generate_code` call can only return the text of the
first content segment of the service's response to the one request built
from its prompt. -/
theorem generate_code_ok_shape
    (env : Option String) (service : Request → Response) (P code : String)
    (h : (generate_code env service P).result = .ok code) :
    ∃ c rest, (service (requestFor P)).content = c :: rest ∧ code = c.text := by
  cases env with
  | none => simp [generate_code] at h
  | some k =>
    by_cases hk : k = ""
    · simp [generate_code, hk] at h
    · simp only [generate_code, if_neg hk] at h
      cases hc : (service (requestFor P)).content with
      | nil => rw [hc] at h; simp at h
      | cons c rest =>
        rw [hc] at h
        simp at h
        exact ⟨c, rest, rfl, h.symm⟩

/-- C6 counterexample: the invocation with no prompt argument exits
non-zero yet writes nothing to the diagnostic stream (the usage message
goes to standard output), so it realises neither of the claim's two
outcomes. -/
theorem C6_dichotomy_counterexample :
    ¬ ((main ["claude_client.py"] none (constService "x")).exitCode = 0 ∨
       (main ["claude_client.py"] none (constService "x")).stderr ≠ "") := by
  decide

/-- C6 amended: for every invocation exactly one of two outcomes occurs —
either the process writes the completion text (the first content segment
of the service's response to the request built from the prompt argument)
terminated by exactly one newline to standard output with nothing on the
diagnostic stream and exits 0, or it exits 1 having written either the
usage message to standard output (missing-argument case, diagnostic
stream empty) or a diagnostic message to the diagnostic stream (standard
output empty); the service is invoked at most once (no retry), and no
partial result is produced. -/
theorem C6_single_outcome
    (argv : List String) (env : Option String) (service : Request → Response) :
    (((main argv env service).exitCode = 0 ∧
        (main argv env service).stderr = "" ∧
        ∃ a0 P extra, argv = a0 :: P :: extra ∧
          ∃ c rest, (service (requestFor P)).content = c :: rest ∧
            (main argv env service).stdout = c.text ++ "\n") ∨
     ((main argv env service).exitCode = 1 ∧
        (((main argv env service).stdout = usageLine ∧
            (main argv env service).stderr = "") ∨
         ((main argv env service).stdout = "" ∧
            (main argv env service).stderr ≠ "")))) ∧
    (main argv env service).serviceCalls.length ≤ 1 := by
  cases argv with
  | nil => exact ⟨Or.inr ⟨rfl, Or.inl ⟨rfl, rfl⟩⟩, by simp [main]⟩
  | cons a0 rest =>
    cases rest with
    | nil => exact ⟨Or.inr ⟨rfl, Or.inl ⟨rfl, rfl⟩⟩, by simp [main]⟩
    | cons P extra =>
      have hlen := generate_code_calls_length_le_one env service P
      cases hres : (generate_code env service P).result with
      | ok code =>
        obtain ⟨c, rest, hc, hcode⟩ := generate_code_ok_shape env service P code hres
        rw [main_ok a0 P extra env service code hres]
        refine ⟨Or.inl ⟨rfl, rfl, a0, P, extra, rfl, c, rest, hc, ?_⟩, hlen⟩
        rw [hcode]
      | error e =>
        rw [main_err a0 P extra env service e hres]
        exact ⟨Or.inr ⟨rfl, Or.inr ⟨rfl, tracebackFor_ne_empty e⟩⟩, hlen⟩

end ClaudeClient
